import Mathlib

/-!
Verification of the GraphQL-in-source diagnostics pipeline
(`src/lsp/server/src/validateGraphql.ts`) and of the object-info metadata
cache (`src/lsp/server/src/utils/orgUtils.ts`).

The external collaborators — the `graphql-tag-pluck` extractor, the `graphql`
parser, the diagnostic producers, the org connection, the entity list and the
disk cache — are supplied as environment records, so every theorem quantifies
over all behaviours those collaborators can exhibit.  A call that can throw
or whose promise can reject is embedded as an `Except String` value; a caught
failure is turned back into a plain value exactly where the source has a
`try`/`catch`.  Asynchronous code is embedded by explicit state passing: the
synchronous portion of `getObjectInfo` (up to handing back a promise) is one
state transition, the executor body of the network promise is another, and
the `finally` handler is a third.
-/

/-- An LSP position, `vscode-languageserver` style (0-based line/character). -/
structure Position where
  line : Int
  character : Int
  deriving DecidableEq, Repr

/-- An LSP range.  The source field `range.end` is spelled `endPos` here
because `end` is a Lean keyword. -/
structure Range where
  start : Position
  endPos : Position
  deriving DecidableEq, Repr

/-- The parts of an LSP `Diagnostic` the pipeline manipulates: the range it
remaps, plus the message and the producer identifier (`data`) it carries
through untouched. -/
structure Diagnostic where
  range : Range
  message : String
  data : String
  deriving DecidableEq, Repr

/-- `locationOffset` of a plucked GraphQL source: the (1-based) line/column in
the host file where the embedded query starts, as reported by
`gqlPluckFromCodeStringSync`. -/
structure LocationOffset where
  line : Int
  column : Int
  deriving DecidableEq, Repr

/-- One plucked query: its text and its location in the host document
(the `Source` objects returned by `gqlPluckFromCodeStringSync`). -/
structure Source where
  body : String
  locationOffset : LocationOffset
  deriving DecidableEq, Repr

/-- The parts of `vscode-languageserver-textdocument`'s `TextDocument` the
pipeline reads. -/
structure TextDocument where
  uri : String
  languageId : String
  version : Int
  content : String
  deriving DecidableEq, Repr

/-- `TextDocument.create(uri, languageId, version, content)`. -/
def TextDocument.create (uri languageId : String) (version : Int)
    (content : String) : TextDocument :=
  ⟨uri, languageId, version, content⟩

/-- `textDocument.getText()`. -/
def TextDocument.getText (d : TextDocument) : String :=
  d.content

/-- Environment of external collaborators of `validateGraphql`:
`pluck` is `gqlPluckFromCodeStringSync(uri, text, ...)` (its host-language
parse can throw, hence `Except`); `parse` is `graphql.parse`; `producers` is
the module-level `diagnosticProducers` list, each entry the
`validateDocument(textDocument, astNode)` method of one producer, whose
promise may reject (`Except.error`). `α` is the AST type. -/
structure GqlEnv (α : Type) where
  pluck : String → String → Except String (List Source)
  parse : String → Except String α
  producers : List (TextDocument → α → Except String (List Diagnostic))

/-- Value semantics of `Promise.all` applied to a list of already-launched
tasks: resolves with the list of values in input order, rejects if any task
rejects. -/
def promiseAll {ε β : Type} : List (Except ε β) → Except ε (List β)
  | [] => Except.ok []
  | t :: ts =>
    match t with
    | Except.error e => Except.error e
    | Except.ok v =>
      match promiseAll ts with
      | Except.error e => Except.error e
      | Except.ok vs => Except.ok (v :: vs)

/-- `validateOneGraphQuery(textDocument, graphql)`: parse the query, fan out
to every producer with `Promise.all`, flatten the findings; the whole body is
inside `try`/`catch`, so both a parse failure and a producer rejection yield
the empty list. -/
def validateOneGraphQuery {α : Type} (env : GqlEnv α)
    (textDocument : TextDocument) (graphql : String) : List Diagnostic :=
  match env.parse graphql with
  | Except.error _ => []
  | Except.ok graphqlAstNode =>
    match promiseAll (env.producers.map
        (fun producer => producer textDocument graphqlAstNode)) with
    | Except.error _ => []
    | Except.ok allResults => allResults.flatten

/-- Endpoint update of `updateDiagnosticOffset`: the column offset is added
only when the endpoint's (original) line is 0, the line offset always. -/
def updatePositionOffset (p : Position) (lineOffset columnOffset : Int) :
    Position :=
  let p1 := if p.line = 0 then { p with character := p.character + columnOffset }
            else p
  { p1 with line := p1.line + lineOffset }

/-- `updateDiagnosticOffset(diagnostic, lineOffset, columnOffset)`, written as
a pure function returning the updated diagnostic (the source mutates
`diagnostic.range` in place). -/
def updateDiagnosticOffset (diagnostic : Diagnostic)
    (lineOffset columnOffset : Int) : Diagnostic :=
  { diagnostic with
      range :=
        { start := updatePositionOffset diagnostic.range.start lineOffset columnOffset,
          endPos := updatePositionOffset diagnostic.range.endPos lineOffset columnOffset } }

/-- The inner `for (const item of diagnostics)` loop of `validateGraphql`:
stop as soon as `results.length >= maxCount`, otherwise remap the finding and
push it. -/
def pushFindings (maxCount lineOffset columnOffset : Int) :
    List Diagnostic → List Diagnostic → List Diagnostic
  | [], results => results
  | item :: items, results =>
    if (results.length : Int) ≥ maxCount then results
    else pushFindings maxCount lineOffset columnOffset items
      (results ++ [updateDiagnosticOffset item lineOffset columnOffset])

/-- The outer `for (const query of graphQueries)` loop of `validateGraphql`:
per fragment, check the cap, compute the offsets (`locationOffset.line - 1`,
`locationOffset.column + 1`), wrap the body as a standalone GraphQL text
document, validate it, then append its findings through `pushFindings`. -/
def processQueries {α : Type} (env : GqlEnv α) (maxCount : Int) :
    List Source → List Diagnostic → List Diagnostic
  | [], results => results
  | query :: rest, results =>
    if (results.length : Int) ≥ maxCount then results
    else
      processQueries env maxCount rest
        (pushFindings maxCount (query.locationOffset.line - 1)
          (query.locationOffset.column + 1)
          (validateOneGraphQuery env
            (TextDocument.create "" "graphql" 1 query.body) query.body)
          results)

/-- `validateGraphql(textDocument, maxCount)`: short-circuit on a
non-positive cap or an empty producer list, then pluck the embedded queries
(the pluck call sits outside any `try`/`catch`, so its failure propagates),
then run the two capped loops. -/
def validateGraphql {α : Type} (env : GqlEnv α) (textDocument : TextDocument)
    (maxCount : Int) : Except String (List Diagnostic) :=
  if maxCount ≤ 0 ∨ env.producers.length = 0 then Except.ok []
  else
    match env.pluck textDocument.uri textDocument.getText with
    | Except.error e => Except.error e
    | Except.ok graphQueries =>
      Except.ok (processQueries env maxCount graphQueries [])

/-- One fragment's contribution in document coordinates: its findings, in
producer-registry order, remapped by the fragment's offsets. -/
def remapFragment {α : Type} (env : GqlEnv α) (query : Source) :
    List Diagnostic :=
  (validateOneGraphQuery env (TextDocument.create "" "graphql" 1 query.body)
      query.body).map
    (fun item => updateDiagnosticOffset item (query.locationOffset.line - 1)
      (query.locationOffset.column + 1))

/-- The canonical uncapped output ordering stated by the spec: fragments in
discovery order, inside a fragment the producers in registry order, inside a
producer its own emission order, no cross-fragment sorting. -/
def specOrderedDiagnostics {α : Type} (env : GqlEnv α)
    (queries : List Source) : List Diagnostic :=
  (queries.map (remapFragment env)).flatten

/-- Whether an awaited call resolved (to a list) rather than rejected. -/
def resolvesToList {ε β : Type} : Except ε β → Bool
  | Except.ok _ => true
  | Except.error _ => false

/-! ### Embedding of `OrgUtils` (`src/lsp/server/src/utils/orgUtils.ts`) -/

/-- `ConnectionStatus` of `orgUtils.ts`. -/
inductive ConnectionStatus where
  | UNKNOWN
  | CONNECTED
  | DISCONNECTED
  deriving DecidableEq, Repr

/-- The part of a `Connection` the embedding needs: it exists and has a
username. -/
structure Connection where
  username : String
  deriving DecidableEq, Repr

/-- A stand-in for the `ObjectInfoRepresentation` payload fetched over the
network; its internal shape is irrelevant to the cache logic. -/
structure ObjectInfoRepresentation where
  apiName : String
  label : String
  deriving DecidableEq, Repr

/-- The static mutable state of `OrgUtils`: connection status, connection,
entity list, the in-memory object-info cache, and the in-flight promise map.
Promises are identified by handles (`Nat`); `nextHandle` is the allocator. -/
structure OrgState where
  connectStatus : ConnectionStatus
  connection : Option Connection
  entities : List String
  objectInfoInMemoCache : List (String × ObjectInfoRepresentation)
  objectInfoPromises : List (String × Nat)
  nextHandle : Nat
  deriving DecidableEq, Repr

/-- The external effects `OrgUtils` consults, injected as one record:
`getConnectionRes` is the result of `await getConnection()` (that method
catches its own errors and returns `undefined`, hence `Option`);
`entityListResult` summarises the entity-list acquisition of the `CONNECTED`
branch of `checkAuthStatus` (disk read or `describeGlobal`, either can
throw); `networkResult` is the `connection.request` call for one object name;
`diskInfo` is `fetchObjectInfoFromDisk`. -/
structure OrgEnv where
  getConnectionRes : Option Connection
  entityListResult : Except String (List String)
  networkResult : String → Except String ObjectInfoRepresentation
  diskInfo : String → Option ObjectInfoRepresentation

/-- `Map.get`: first value stored under a key. -/
def findValue {β : Type} : List (String × β) → String → Option β
  | [], _ => none
  | (k, v) :: rest, key => if k = key then some v else findValue rest key

/-- `Map.delete`: drop every entry stored under a key. -/
def deleteKey {β : Type} (m : List (String × β)) (key : String) :
    List (String × β) :=
  m.filter (fun kv => kv.1 != key)

/-- `OrgUtils.checkAuthStatus()`: cached status short-circuits; otherwise the
connection decides `CONNECTED`/`DISCONNECTED`, and on `CONNECTED` the entity
list is loaded (a step whose failure is not caught and so propagates). -/
def checkAuthStatus (env : OrgEnv) (s : OrgState) :
    Except String (ConnectionStatus × OrgState) :=
  if s.connectStatus ≠ ConnectionStatus.UNKNOWN then
    Except.ok (s.connectStatus, s)
  else
    match env.getConnectionRes with
    | none =>
      Except.ok (ConnectionStatus.DISCONNECTED,
        { s with connectStatus := ConnectionStatus.DISCONNECTED })
    | some c =>
      match env.entityListResult with
      | Except.error e => Except.error e
      | Except.ok objectList =>
        Except.ok (ConnectionStatus.CONNECTED,
          { s with
              connectStatus := ConnectionStatus.CONNECTED,
              connection := some c,
              entities := objectList })

/-- `OrgUtils.getObjectInfoFromCache(objectApiName)`: memory first, then
disk; a disk hit is promoted into the memory cache. -/
def getObjectInfoFromCache (env : OrgEnv) (s : OrgState)
    (objectApiName : String) : Option ObjectInfoRepresentation × OrgState :=
  match findValue s.objectInfoInMemoCache objectApiName with
  | some objectInfo => (some objectInfo, s)
  | none =>
    match env.diskInfo objectApiName with
    | some objectInfo =>
      (some objectInfo,
        { s with objectInfoInMemoCache :=
            (objectApiName, objectInfo) :: s.objectInfoInMemoCache })
    | none => (none, s)

/-- What the synchronous portion of `getObjectInfo` hands back to its caller:
an already-resolved value, the existing in-flight promise for the key, or a
freshly started request (its new handle). -/
inductive GetStart where
  | done : Option ObjectInfoRepresentation → GetStart
  | existing : Nat → GetStart
  | started : Nat → GetStart
  deriving DecidableEq, Repr

/-- `OrgUtils.getObjectInfo(objectApiName)` up to the point where a promise is
returned: auth check (whose failure propagates), early `undefined` when not
connected, two-tier cache lookup, then the single-flight promise map — an
in-flight handle is returned as-is, otherwise a new handle is allocated and
registered. -/
def getObjectInfo (env : OrgEnv) (s : OrgState) (objectApiName : String) :
    Except String (GetStart × OrgState) :=
  match checkAuthStatus env s with
  | Except.error e => Except.error e
  | Except.ok (connectStatus, s1) =>
    if connectStatus ≠ ConnectionStatus.CONNECTED then
      Except.ok (GetStart.done none, s1)
    else
      match getObjectInfoFromCache env s1 objectApiName with
      | (some objectInfo, s2) => Except.ok (GetStart.done (some objectInfo), s2)
      | (none, s2) =>
        match findValue s2.objectInfoPromises objectApiName with
        | some handle => Except.ok (GetStart.existing handle, s2)
        | none =>
          Except.ok (GetStart.started s2.nextHandle,
            { s2 with
                objectInfoPromises :=
                  (objectApiName, s2.nextHandle) :: s2.objectInfoPromises,
                nextHandle := s2.nextHandle + 1 })

/-- How the executor body of the network promise ends: it calls `resolve`
with a value, or it falls off the end without ever resolving (which the
source does when the connection is gone or the name is not a known entity). -/
inductive TaskResolution where
  | resolved : Option ObjectInfoRepresentation → TaskResolution
  | unresolved
  deriving DecidableEq, Repr

/-- `OrgUtils.objectInfoResponseCallback`: store the fetched object info in
the memory cache (the disk write is an external effect). -/
def objectInfoResponseCallback (s : OrgState) (objectApiName : String)
    (objectInfo : ObjectInfoRepresentation) : OrgState :=
  { s with objectInfoInMemoCache :=
      (objectApiName, objectInfo) :: s.objectInfoInMemoCache }

/-- The executor body of the promise built inside `getObjectInfo`: fetch over
the network when a connection exists and the name is a known entity, caching
on success; the surrounding `catch` turns any thrown error into
`resolve(undefined)`; the guard-failure path ends without resolving. -/
def runObjectInfoTask (env : OrgEnv) (s : OrgState) (objectApiName : String) :
    TaskResolution × OrgState :=
  match env.getConnectionRes with
  | some _ =>
    if objectApiName ∈ s.entities then
      match env.networkResult objectApiName with
      | Except.ok objectInfo =>
        (TaskResolution.resolved (some objectInfo),
          objectInfoResponseCallback s objectApiName objectInfo)
      | Except.error _ => (TaskResolution.resolved none, s)
    else (TaskResolution.unresolved, s)
  | none => (TaskResolution.unresolved, s)

/-- The `.finally` handler attached to the network promise: on completion —
success or failure alike — remove the in-flight handle for the key. -/
def settleObjectInfoRequest (s : OrgState) (objectApiName : String) :
    OrgState :=
  { s with objectInfoPromises := deleteKey s.objectInfoPromises objectApiName }

/-! ### Concrete data used by witnesses and counterexamples -/

/-- A host document; its text never matters because the extractor is
environment-supplied. -/
def hostDocument : TextDocument :=
  TextDocument.create "file:force-app/main/default/lwc/card/card.js"
    "javascript" 1 "const card = 1;"

/-- A finding on the fragment's first line, range (0,3)-(0,8). -/
def diagFirstLine : Diagnostic :=
  ⟨⟨⟨0, 3⟩, ⟨0, 8⟩⟩, "Name1 is not a valid field", "misspelled-uiapi"⟩

/-- A finding off the fragment's first line, range (1,2)-(1,9). -/
def diagSecondLine : Diagnostic :=
  ⟨⟨⟨1, 2⟩, ⟨1, 9⟩⟩, "Name2 is not a valid field", "misspelled-uiapi"⟩

/-- A third finding, range (2,0)-(2,4). -/
def diagThirdLine : Diagnostic :=
  ⟨⟨⟨2, 0⟩, ⟨2, 4⟩⟩, "Name3 is not a valid field", "misspelled-uiapi"⟩

/-- A fragment plucked at host line 3, column 4. -/
def fragmentA : Source := ⟨"query A", ⟨3, 4⟩⟩

/-- A fragment plucked at host line 10, column 1. -/
def fragmentB : Source := ⟨"query B", ⟨10, 1⟩⟩

/-- A producer emitting three findings. -/
def producerThree : TextDocument → Unit → Except String (List Diagnostic) :=
  fun _ _ => Except.ok [diagFirstLine, diagSecondLine, diagThirdLine]

/-- A producer emitting one finding. -/
def producerOne : TextDocument → Unit → Except String (List Diagnostic) :=
  fun _ _ => Except.ok [diagFirstLine]

/-- A producer emitting a different single finding. -/
def producerThird : TextDocument → Unit → Except String (List Diagnostic) :=
  fun _ _ => Except.ok [diagThirdLine]

/-- A producer whose promise rejects. -/
def producerReject : TextDocument → Unit → Except String (List Diagnostic) :=
  fun _ _ => Except.error "rule crashed"

/-- One fragment, one producer with three findings. -/
def envThree : GqlEnv Unit :=
  ⟨fun _ _ => Except.ok [fragmentA], fun _ => Except.ok (), [producerThree]⟩

/-- Two fragments, two producers. -/
def envTwoFrag : GqlEnv Unit :=
  ⟨fun _ _ => Except.ok [fragmentA, fragmentB], fun _ => Except.ok (),
    [producerOne, producerThird]⟩

/-- An environment whose extractor throws (a host file the pluck library
cannot parse). -/
def badHostEnv : GqlEnv Unit :=
  ⟨fun _ _ => Except.error "failed to parse host file", fun _ => Except.ok (),
    [producerOne]⟩

/-- An environment whose parser rejects the text of `fragmentA` only. -/
def envParseFail : GqlEnv Unit :=
  ⟨fun _ _ => Except.ok [fragmentB, fragmentA],
    fun body => if body = "query A" then Except.error "Syntax Error"
                else Except.ok (),
    [producerOne]⟩

/-- An environment with a well-behaved producer followed by a rejecting
one. -/
def envReject : GqlEnv Unit :=
  ⟨fun _ _ => Except.ok [fragmentA], fun _ => Except.ok (),
    [producerOne, producerReject]⟩

/-- Expected capped output of `envThree` at cap 2: `fragmentA`'s offsets are
lineOffset 2 and columnOffset 5. -/
def cappedResultA : List Diagnostic :=
  [⟨⟨⟨2, 8⟩, ⟨2, 13⟩⟩, "Name1 is not a valid field", "misspelled-uiapi"⟩,
   ⟨⟨⟨3, 2⟩, ⟨3, 9⟩⟩, "Name2 is not a valid field", "misspelled-uiapi"⟩]

/-- Expected uncapped output of `envTwoFrag`: fragment order, then producer
order. -/
def orderedResultAB : List Diagnostic :=
  [⟨⟨⟨2, 8⟩, ⟨2, 13⟩⟩, "Name1 is not a valid field", "misspelled-uiapi"⟩,
   ⟨⟨⟨4, 0⟩, ⟨4, 4⟩⟩, "Name3 is not a valid field", "misspelled-uiapi"⟩,
   ⟨⟨⟨9, 5⟩, ⟨9, 10⟩⟩, "Name1 is not a valid field", "misspelled-uiapi"⟩,
   ⟨⟨⟨11, 0⟩, ⟨11, 4⟩⟩, "Name3 is not a valid field", "misspelled-uiapi"⟩]

/-- A connection for the org witnesses. -/
def orgConnection : Connection := ⟨"test-user"⟩

/-- Fresh org state: status unknown, everything empty. -/
def orgStateUnknown : OrgState :=
  ⟨ConnectionStatus.UNKNOWN, none, [], [], [], 0⟩

/-- Connected org state with one in-flight request for `Account` (handle 7). -/
def orgStateConnected : OrgState :=
  ⟨ConnectionStatus.CONNECTED, some orgConnection, ["Account"], [],
    [("Account", 7)], 8⟩

/-- Connected org state with no in-flight request. -/
def orgStateConnectedIdle : OrgState :=
  ⟨ConnectionStatus.CONNECTED, some orgConnection, ["Account"], [], [], 8⟩

/-- Effects when no org session exists at all. -/
def orgEnvOffline : OrgEnv :=
  ⟨none, Except.error "no org", fun _ => Except.error "offline",
    fun _ => none⟩

/-- Effects when a session exists but the object-info request fails. -/
def orgEnvFlaky : OrgEnv :=
  ⟨some orgConnection, Except.ok ["Account"],
    fun _ => Except.error "network down", fun _ => none⟩

/-! ### Helper lemmas -/

theorem updatePositionOffset_zero (p : Position) :
    updatePositionOffset p 0 0 = p := by
  simp only [updatePositionOffset, Int.add_zero]
  split <;> rfl

theorem validateOneGraphQuery_nil_of_no_producers {α : Type} (env : GqlEnv α)
    (textDocument : TextDocument) (graphql : String)
    (h : env.producers = []) :
    validateOneGraphQuery env textDocument graphql = [] := by
  unfold validateOneGraphQuery
  rw [h]
  cases env.parse graphql <;> simp [promiseAll]

theorem specOrderedDiagnostics_nil_of_no_producers {α : Type} (env : GqlEnv α)
    (queries : List Source) (h : env.producers = []) :
    specOrderedDiagnostics env queries = [] := by
  induction queries with
  | nil => rfl
  | cons query rest ih =>
    simp only [specOrderedDiagnostics, List.map_cons, List.flatten_cons] at ih ⊢
    rw [ih, remapFragment,
      validateOneGraphQuery_nil_of_no_producers env _ _ h]
    rfl

theorem pushFindings_eq_take (maxCount lineOffset columnOffset : Int)
    (items results : List Diagnostic) :
    pushFindings maxCount lineOffset columnOffset items results =
      results ++ (items.map
        (fun item => updateDiagnosticOffset item lineOffset columnOffset)).take
          (maxCount - results.length).toNat := by
  induction items generalizing results with
  | nil => simp [pushFindings]
  | cons item rest ih =>
    by_cases hfull : (results.length : Int) ≥ maxCount
    · have h0 : (maxCount - (results.length : Int)).toNat = 0 := by omega
      simp [pushFindings, hfull, h0]
    · have hk : (maxCount - (results.length : Int)).toNat =
          (maxCount - ((results.length : Int) + 1)).toNat + 1 := by omega
      simp only [pushFindings, List.map_cons]
      rw [if_neg hfull, ih, hk, List.take_succ_cons]
      simp [List.append_assoc]

theorem processQueries_eq_take {α : Type} (env : GqlEnv α) (maxCount : Int)
    (queries : List Source) (results : List Diagnostic) :
    processQueries env maxCount queries results =
      results ++ (specOrderedDiagnostics env queries).take
        (maxCount - results.length).toNat := by
  induction queries generalizing results with
  | nil => simp [processQueries, specOrderedDiagnostics]
  | cons query rest ih =>
    by_cases hfull : (results.length : Int) ≥ maxCount
    · have h0 : (maxCount - (results.length : Int)).toNat = 0 := by omega
      simp [processQueries, hfull, h0]
    · have hcons : specOrderedDiagnostics env (query :: rest) =
          remapFragment env query ++ specOrderedDiagnostics env rest := by
        simp [specOrderedDiagnostics]
      simp only [processQueries]
      rw [if_neg hfull, pushFindings_eq_take, ih, hcons,
        List.take_append_eq_append_take, remapFragment, List.append_assoc]
      have hlen : (maxCount -
            ((results ++ ((validateOneGraphQuery env
                (TextDocument.create "" "graphql" 1 query.body)
                query.body).map
              (fun item => updateDiagnosticOffset item
                (query.locationOffset.line - 1)
                (query.locationOffset.column + 1))).take
              (maxCount - results.length).toNat).length : Int)).toNat =
          (maxCount - results.length).toNat -
            ((validateOneGraphQuery env
                (TextDocument.create "" "graphql" 1 query.body)
                query.body).map
              (fun item => updateDiagnosticOffset item
                (query.locationOffset.line - 1)
                (query.locationOffset.column + 1))).length := by
        simp only [List.length_append, List.length_take]
        omega
      rw [hlen]

theorem validateGraphql_eq_take {α : Type} (env : GqlEnv α)
    (textDocument : TextDocument) (maxCount : Int) (graphQueries : List Source)
    (h : env.pluck textDocument.uri textDocument.getText =
      Except.ok graphQueries) :
    validateGraphql env textDocument maxCount =
      Except.ok ((specOrderedDiagnostics env graphQueries).take
        maxCount.toNat) := by
  unfold validateGraphql
  split
  · rename_i hsc
    rcases hsc with hm | hp
    · have h0 : maxCount.toNat = 0 := by omega
      rw [h0]
      rfl
    · rw [specOrderedDiagnostics_nil_of_no_producers env graphQueries
        (List.length_eq_zero.mp hp)]
      simp
  · rw [h]
    show Except.ok (processQueries env maxCount graphQueries []) = _
    rw [processQueries_eq_take]
    simp

/-! ### Claims -/

/-- C1: for every document and every positive `maxCount`, whenever
`validateGraphql` resolves to a list, that list holds at most `maxCount`
diagnostics — the cap is enforced both between fragments and inside each
fragment's per-finding append loop, so a single fragment with more findings
than the remaining budget still cannot overflow the cap. -/
theorem validateGraphql_length_le_maxCount {α : Type} (env : GqlEnv α)
    (textDocument : TextDocument) (maxCount : Int) (ds : List Diagnostic)
    (hpos : 0 < maxCount)
    (h : validateGraphql env textDocument maxCount = Except.ok ds) :
    (ds.length : Int) ≤ maxCount := by
  cases hp : env.pluck textDocument.uri textDocument.getText with
  | error e =>
    unfold validateGraphql at h
    split at h
    · simp only [Except.ok.injEq] at h
      subst h
      simp
      omega
    · rw [hp] at h
      simp at h
  | ok graphQueries =>
    rw [validateGraphql_eq_take env textDocument maxCount graphQueries hp] at h
    simp only [Except.ok.injEq] at h
    subst h
    have hle := List.length_take_le maxCount.toNat
      (specOrderedDiagnostics env graphQueries)
    omega

theorem validateGraphql_length_le_maxCount_witness :
    (0 : Int) < 2 ∧ ((cappedResultA.length : Int) ≤ 2) :=
  ⟨by decide,
    validateGraphql_length_le_maxCount envThree hostDocument 2 cappedResultA
      (by decide) (by rfl)⟩

/-- C6: whenever extraction succeeds, the returned diagnostics are exactly a
prefix (up to the cap) of the canonical ordering: fragments in discovery
order, inside one fragment the producers' findings in registry order (the
`Promise.all` join hands them back in registry order even though the rules
run concurrently), inside one producer its own emission order — no
cross-fragment sorting. -/
theorem validateGraphql_ordered_output {α : Type} (env : GqlEnv α)
    (textDocument : TextDocument) (maxCount : Int) (graphQueries : List Source)
    (h : env.pluck textDocument.uri textDocument.getText =
      Except.ok graphQueries) :
    validateGraphql env textDocument maxCount =
      Except.ok ((specOrderedDiagnostics env graphQueries).take
        maxCount.toNat) :=
  validateGraphql_eq_take env textDocument maxCount graphQueries h

theorem validateGraphql_ordered_output_witness :
    validateGraphql envTwoFrag hostDocument 10 =
      Except.ok ((specOrderedDiagnostics envTwoFrag [fragmentA, fragmentB]).take
        (10 : Int).toNat) ∧
    specOrderedDiagnostics envTwoFrag [fragmentA, fragmentB] =
      orderedResultAB :=
  ⟨validateGraphql_ordered_output envTwoFrag hostDocument 10
      [fragmentA, fragmentB] rfl,
    by decide⟩

/-- C2 counterexample: `validateGraphql` is claimed never to throw for any
input, yet the `gqlPluckFromCodeStringSync` call is outside every
`try`/`catch`, so with an extractor that throws on this host document the
returned promise rejects instead of resolving to a list. -/
theorem validateGraphql_throws_on_pluck_failure :
    validateGraphql badHostEnv hostDocument 5 =
      Except.error "failed to parse host file" := by
  rfl

/-- C2 amended: whenever the extraction call returns normally (any fragment
list, including the empty one), `validateGraphql` resolves to a list; parse
failures and rule failures never propagate to the caller.  An extraction
failure, however, does propagate. -/
theorem validateGraphql_ok_of_pluck_ok {α : Type} (env : GqlEnv α)
    (textDocument : TextDocument) (maxCount : Int) (graphQueries : List Source)
    (h : env.pluck textDocument.uri textDocument.getText =
      Except.ok graphQueries) :
    resolvesToList (validateGraphql env textDocument maxCount) = true := by
  rw [validateGraphql_eq_take env textDocument maxCount graphQueries h]
  rfl

theorem validateGraphql_ok_of_pluck_ok_witness :
    resolvesToList (validateGraphql envParseFail hostDocument 5) = true :=
  validateGraphql_ok_of_pluck_ok envParseFail hostDocument 5
    [fragmentB, fragmentA] rfl

/-- C5: for a non-positive cap, and likewise for an empty producer registry,
`validateGraphql` returns the empty list immediately; the environment is
arbitrary — in particular its extractor may even throw — so no extraction
work is performed on the document text. -/
theorem validateGraphql_shortCircuit {α : Type} (env : GqlEnv α)
    (textDocument : TextDocument) (maxCount : Int)
    (h : maxCount ≤ 0 ∨ env.producers = []) :
    validateGraphql env textDocument maxCount = Except.ok [] := by
  unfold validateGraphql
  rw [if_pos]
  rcases h with h | h
  · exact Or.inl h
  · exact Or.inr (by rw [h]; rfl)

theorem validateGraphql_shortCircuit_witness :
    validateGraphql badHostEnv hostDocument 0 = Except.ok [] :=
  validateGraphql_shortCircuit badHostEnv hostDocument 0 (Or.inl (by decide))

theorem processQueries_of_full {α : Type} (env : GqlEnv α) (maxCount : Int)
    (queries : List Source) (results : List Diagnostic)
    (h : (results.length : Int) ≥ maxCount) :
    processQueries env maxCount queries results = results := by
  cases queries with
  | nil => rfl
  | cons query rest =>
    simp only [processQueries]
    rw [if_pos h]

theorem processQueries_skip_empty {α : Type} (env : GqlEnv α) (query : Source)
    (maxCount : Int)
    (hempty : validateOneGraphQuery env
      (TextDocument.create "" "graphql" 1 query.body) query.body = [])
    (qs1 qs2 : List Source) (results : List Diagnostic) :
    processQueries env maxCount (qs1 ++ query :: qs2) results =
      processQueries env maxCount (qs1 ++ qs2) results := by
  induction qs1 generalizing results with
  | nil =>
    simp only [List.nil_append]
    by_cases hfull : (results.length : Int) ≥ maxCount
    · rw [processQueries_of_full env maxCount _ _ hfull,
        processQueries_of_full env maxCount _ _ hfull]
    · conv =>
        lhs
        simp only [processQueries]
      rw [if_neg hfull, hempty]
      rfl
  | cons q qs ih =>
    simp only [List.cons_append, processQueries]
    by_cases hfull : (results.length : Int) ≥ maxCount
    · rw [if_pos hfull, if_pos hfull]
    · rw [if_neg hfull, if_neg hfull]
      exact ih _

/-- C3: a fragment whose text fails to parse contributes zero diagnostics
(`validateOneGraphQuery` returns the empty list, no exception escapes), and
inside the fragment loop of `validateGraphql` dropping such a fragment from
the plucked list leaves the result unchanged — the other fragments still
contribute their diagnostics. -/
theorem parse_failure_silent_skip {α : Type} (env : GqlEnv α) (query : Source)
    (e : String) (h : env.parse query.body = Except.error e) :
    (∀ textDocument : TextDocument,
      validateOneGraphQuery env textDocument query.body = []) ∧
    (∀ (maxCount : Int) (qs1 qs2 : List Source) (results : List Diagnostic),
      processQueries env maxCount (qs1 ++ query :: qs2) results =
        processQueries env maxCount (qs1 ++ qs2) results) := by
  have hone : ∀ textDocument : TextDocument,
      validateOneGraphQuery env textDocument query.body = [] := by
    intro textDocument
    unfold validateOneGraphQuery
    rw [h]
  exact ⟨hone, fun maxCount qs1 qs2 results =>
    processQueries_skip_empty env query maxCount (hone _) qs1 qs2 results⟩

theorem parse_failure_silent_skip_witness :
    validateOneGraphQuery envParseFail
      (TextDocument.create "" "graphql" 1 fragmentA.body) fragmentA.body = [] ∧
    processQueries envParseFail 10 [fragmentB, fragmentA] [] =
      processQueries envParseFail 10 [fragmentB] [] :=
  ⟨(parse_failure_silent_skip envParseFail fragmentA "Syntax Error"
      (by rfl)).1 _,
    (parse_failure_silent_skip envParseFail fragmentA "Syntax Error"
      (by rfl)).2 10 [fragmentB] [] []⟩

theorem promiseAll_error_of_mem {ε β : Type} (l : List (Except ε β))
    (t : Except ε β) (e : ε) (hmem : t ∈ l) (ht : t = Except.error e) :
    ∃ e', promiseAll l = Except.error e' := by
  induction l with
  | nil => cases hmem
  | cons x xs ih =>
    cases x with
    | error e0 => exact ⟨e0, rfl⟩
    | ok v =>
      rcases List.mem_cons.mp hmem with hx | hx
      · rw [hx] at ht
        cases ht
      · obtain ⟨e', he'⟩ := ih hx
        refine ⟨e', ?_⟩
        simp only [promiseAll, he']

/-- C7: for a fragment that parses successfully, if any single producer's
`validateDocument` promise rejects, `validateOneGraphQuery` resolves to the
empty list (the `Promise.all` rejection is caught by the surrounding
`catch`), so every other producer's findings for that fragment are discarded,
no rejection reaches `validateGraphql`'s caller, and the other fragments are
still processed (dropping the fragment leaves the loop's result unchanged). -/
theorem producer_rejection_drops_fragment {α : Type} (env : GqlEnv α)
    (query : Source) (ast : α) (hparse : env.parse query.body = Except.ok ast)
    (hrej : ∃ producer ∈ env.producers, ∃ e,
      producer (TextDocument.create "" "graphql" 1 query.body) ast =
        Except.error e) :
    validateOneGraphQuery env
      (TextDocument.create "" "graphql" 1 query.body) query.body = [] ∧
    (∀ (maxCount : Int) (qs1 qs2 : List Source) (results : List Diagnostic),
      processQueries env maxCount (qs1 ++ query :: qs2) results =
        processQueries env maxCount (qs1 ++ qs2) results) := by
  obtain ⟨producer, hmem, e, hpe⟩ := hrej
  obtain ⟨e', he'⟩ := promiseAll_error_of_mem
    (env.producers.map (fun p =>
      p (TextDocument.create "" "graphql" 1 query.body) ast))
    (producer (TextDocument.create "" "graphql" 1 query.body) ast) e
    (List.mem_map_of_mem _ hmem) hpe
  have hone : validateOneGraphQuery env
      (TextDocument.create "" "graphql" 1 query.body) query.body = [] := by
    simp only [validateOneGraphQuery, hparse, he']
  exact ⟨hone, fun maxCount qs1 qs2 results =>
    processQueries_skip_empty env query maxCount hone qs1 qs2 results⟩

theorem producer_rejection_drops_fragment_witness :
    validateOneGraphQuery envReject
      (TextDocument.create "" "graphql" 1 fragmentA.body) fragmentA.body = [] ∧
    processQueries envReject 10 [fragmentA, fragmentB] [] =
      processQueries envReject 10 [fragmentB] [] := by
  have h := producer_rejection_drops_fragment envReject fragmentA () rfl
    ⟨producerReject, by exact List.Mem.tail _ (List.Mem.head _),
      "rule crashed", rfl⟩
  exact ⟨h.1, h.2 10 [] [fragmentB] []⟩

/-- C8: remapping with the identity offset is a no-op — applying
`updateDiagnosticOffset` with both offsets 0 returns the diagnostic (and so
its range, every endpoint's line and column) unchanged. -/
theorem updateDiagnosticOffset_identity (diagnostic : Diagnostic) :
    updateDiagnosticOffset diagnostic 0 0 = diagnostic := by
  simp [updateDiagnosticOffset, updatePositionOffset_zero]

/-- C4: for each endpoint of the range, `updateDiagnosticOffset` adds
`columnOffset` to the column exactly when the endpoint's line equals 0 and
adds `lineOffset` to the line unconditionally; in particular, for a fragment
at `LocationOffset` (lineOffset 5, columnOffset 10) the finding range
(0,3)-(0,8) remaps to (5,13)-(5,18), and a finding start (1,2), off the
fragment's first line, remaps to (6,2) with its column unchanged. -/
theorem updateDiagnosticOffset_remap_law :
    (∀ (d : Diagnostic) (lineOffset columnOffset : Int),
      (updateDiagnosticOffset d lineOffset columnOffset).range.start.line =
          d.range.start.line + lineOffset ∧
        (updateDiagnosticOffset d lineOffset columnOffset).range.endPos.line =
          d.range.endPos.line + lineOffset ∧
        (updateDiagnosticOffset d lineOffset columnOffset).range.start.character =
          (if d.range.start.line = 0 then d.range.start.character + columnOffset
           else d.range.start.character) ∧
        (updateDiagnosticOffset d lineOffset columnOffset).range.endPos.character =
          (if d.range.endPos.line = 0 then d.range.endPos.character + columnOffset
           else d.range.endPos.character)) ∧
    (updateDiagnosticOffset diagFirstLine 5 10).range = ⟨⟨5, 13⟩, ⟨5, 18⟩⟩ ∧
    (updateDiagnosticOffset diagSecondLine 5 10).range.start = ⟨6, 2⟩ := by
  refine ⟨?_, by decide, by decide⟩
  intro d lineOffset columnOffset
  refine ⟨?_, ?_, ?_, ?_⟩ <;>
    · simp only [updateDiagnosticOffset, updatePositionOffset]
      split <;> simp

theorem findValue_deleteKey {β : Type} (m : List (String × β)) (key : String) :
    findValue (deleteKey m key) key = none := by
  induction m with
  | nil => rfl
  | cons kv rest ih =>
    by_cases h : kv.1 = key
    · simpa [deleteKey, List.filter_cons, h] using ih
    · simpa [deleteKey, List.filter_cons, h, findValue] using ih

/-- C9: when the metadata source is unavailable, `getObjectInfo` resolves to
`undefined` rather than rejecting: with no connected session (status already
`DISCONNECTED`, or still `UNKNOWN` while `getConnection` yields nothing) it
returns `undefined` immediately for every object name, and when the network
request for an object fails the executor's `catch` resolves the promise with
`undefined`. -/
theorem getObjectInfo_absent_on_unavailable (env : OrgEnv) (s : OrgState)
    (objectApiName : String) :
    (s.connectStatus = ConnectionStatus.DISCONNECTED →
      getObjectInfo env s objectApiName =
        Except.ok (GetStart.done none, s)) ∧
    (s.connectStatus = ConnectionStatus.UNKNOWN →
      env.getConnectionRes = none →
      getObjectInfo env s objectApiName =
        Except.ok (GetStart.done none,
          { s with connectStatus := ConnectionStatus.DISCONNECTED })) ∧
    (∀ (c : Connection) (e : String), env.getConnectionRes = some c →
      objectApiName ∈ s.entities →
      env.networkResult objectApiName = Except.error e →
      runObjectInfoTask env s objectApiName =
        (TaskResolution.resolved none, s)) := by
  refine ⟨?_, ?_, ?_⟩
  · intro h
    simp [getObjectInfo, checkAuthStatus, h]
  · intro h hc
    simp [getObjectInfo, checkAuthStatus, h, hc]
  · intro c e hc hm hn
    simp [runObjectInfoTask, hc, hm, hn]

theorem getObjectInfo_absent_on_unavailable_witness :
    getObjectInfo orgEnvOffline orgStateUnknown "Account" =
      Except.ok (GetStart.done none,
        { orgStateUnknown with connectStatus := ConnectionStatus.DISCONNECTED }) ∧
    runObjectInfoTask orgEnvFlaky orgStateConnected "Account" =
      (TaskResolution.resolved none, orgStateConnected) :=
  ⟨(getObjectInfo_absent_on_unavailable orgEnvOffline orgStateUnknown
      "Account").2.1 rfl rfl,
    (getObjectInfo_absent_on_unavailable orgEnvFlaky orgStateConnected
      "Account").2.2 orgConnection "network down" rfl (by decide) rfl⟩

/-- C10: the object-info cache is single-flight per key.  While a request for
a name is in flight (connected, both cache tiers miss, a handle is in the
promise map), every further `getObjectInfo` call for that name returns the
very same handle and leaves the state untouched — no duplicate request is
started.  The `finally` handler removes the handle on completion, success or
failure alike, and a later call with no in-flight handle starts a fresh
request under a new handle. -/
theorem getObjectInfo_single_flight (env : OrgEnv) (s : OrgState)
    (objectApiName : String) :
    (∀ handle : Nat, s.connectStatus = ConnectionStatus.CONNECTED →
      findValue s.objectInfoInMemoCache objectApiName = none →
      env.diskInfo objectApiName = none →
      findValue s.objectInfoPromises objectApiName = some handle →
      getObjectInfo env s objectApiName =
        Except.ok (GetStart.existing handle, s)) ∧
    (findValue (settleObjectInfoRequest s objectApiName).objectInfoPromises
      objectApiName = none) ∧
    (s.connectStatus = ConnectionStatus.CONNECTED →
      findValue s.objectInfoInMemoCache objectApiName = none →
      env.diskInfo objectApiName = none →
      findValue s.objectInfoPromises objectApiName = none →
      getObjectInfo env s objectApiName =
        Except.ok (GetStart.started s.nextHandle,
          { s with
              objectInfoPromises :=
                (objectApiName, s.nextHandle) :: s.objectInfoPromises,
              nextHandle := s.nextHandle + 1 })) := by
  refine ⟨?_, findValue_deleteKey s.objectInfoPromises objectApiName, ?_⟩
  · intro handle hst hmem hdisk hprom
    simp [getObjectInfo, checkAuthStatus, getObjectInfoFromCache, hst, hmem,
      hdisk, hprom]
  · intro hst hmem hdisk hprom
    simp [getObjectInfo, checkAuthStatus, getObjectInfoFromCache, hst, hmem,
      hdisk, hprom]

theorem getObjectInfo_single_flight_witness :
    getObjectInfo orgEnvFlaky orgStateConnected "Account" =
      Except.ok (GetStart.existing 7, orgStateConnected) ∧
    findValue (settleObjectInfoRequest orgStateConnected "Account").objectInfoPromises
      "Account" = none ∧
    getObjectInfo orgEnvFlaky orgStateConnectedIdle "Account" =
      Except.ok (GetStart.started 8,
        { orgStateConnectedIdle with
            objectInfoPromises := [("Account", 8)],
            nextHandle := 9 }) :=
  ⟨(getObjectInfo_single_flight orgEnvFlaky orgStateConnected "Account").1
      7 rfl rfl rfl rfl,
    (getObjectInfo_single_flight orgEnvFlaky orgStateConnected "Account").2.1,
    (getObjectInfo_single_flight orgEnvFlaky orgStateConnectedIdle
      "Account").2.2 rfl rfl rfl rfl⟩
